import Mathlib

/-!
Verification of the request-orchestration layer of the SEC-filing RAG backend.

The definitions below are a shallow embedding, faithful to the Python source:
  * `backend/app/agents/router_agent.py`   (query classifier)
  * `backend/app/agents/retriever_agent.py` (retrieval orchestrator)
  * `backend/app/agents/fast_rag.py`       (fast pipeline)
  * `backend/app/main.py`                  (answer cache, compare endpoint)
  * `backend/app/utils/deduplication.py`   (request coalescer)

Python strings are modelled by Lean `String`; Python's `str.lower`, `str.upper`,
`str.strip`, slicing `[:n]`, `str.split()` and the substring operator `in` are
modelled by the `py*` helpers below, restricted to the ASCII case map (all
ticker symbols, questions and keyword lists in play are ASCII).  `dict`s are
modelled as insertion-ordered association lists with overwrite-in-place update,
matching CPython dict semantics.  External collaborators (vector search, hybrid
search, generative model) are oracle parameters returning `Except`, matching
"may raise".  Wall-clock time is an explicit integer parameter.
-/

namespace SecRag

/-- ASCII lower-casing of one character (model of Python `str.lower` per char). -/
def charLower (c : Char) : Char :=
  if 65 ≤ c.toNat ∧ c.toNat ≤ 90 then Char.ofNat (c.toNat + 32) else c

/-- ASCII upper-casing of one character (model of Python `str.upper` per char). -/
def charUpper (c : Char) : Char :=
  if 97 ≤ c.toNat ∧ c.toNat ≤ 122 then Char.ofNat (c.toNat - 32) else c

/-- Python whitespace (the characters `str.strip()` and `str.split()` use). -/
def isPySpace (c : Char) : Bool :=
  c.toNat = 32 ∨ (9 ≤ c.toNat ∧ c.toNat ≤ 13)

/-- Model of Python `s.lower()` (ASCII fragment). -/
def pyLower (s : String) : String := String.mk (s.data.map charLower)

/-- Model of Python `s.upper()` (ASCII fragment). -/
def pyUpper (s : String) : String := String.mk (s.data.map charUpper)

/-- Model of Python `s.strip()`: drop leading and trailing whitespace. -/
def pyStrip (s : String) : String :=
  String.mk (((s.data.dropWhile isPySpace).reverse.dropWhile isPySpace).reverse)

/-- Model of Python slicing `s[:n]`. -/
def pyTake (n : Nat) (s : String) : String := String.mk (s.data.take n)

/-- Whether `pat` occurs at the start of `hay` (character lists). -/
def startsWithChars : List Char → List Char → Bool
  | [], _ => true
  | _ :: _, [] => false
  | p :: ps, h :: hs => p = h && startsWithChars ps hs

/-- Whether `pat` occurs somewhere inside `hay` (character lists). -/
def hasSubChars (pat : List Char) : List Char → Bool
  | [] => startsWithChars pat []
  | h :: hs => startsWithChars pat (h :: hs) || hasSubChars pat hs

/-- Model of Python `sub in s` on strings (substring containment). -/
def pyIn (sub s : String) : Bool := hasSubChars sub.data s.data

/-- Model of Python `s.split()`: split on whitespace runs, no empty words.
`cur` accumulates the current word reversed. -/
def pySplitAux : List Char → List Char → List String
  | [], cur => if cur.isEmpty then [] else [String.mk cur.reverse]
  | c :: rest, cur =>
    if isPySpace c then
      if cur.isEmpty then pySplitAux rest []
      else String.mk cur.reverse :: pySplitAux rest []
    else pySplitAux rest (c :: cur)

/-- Model of Python `s.split()`. -/
def pySplit (s : String) : List String := pySplitAux s.data []

/-! ## Router agent (`router_agent.py`) -/

/-- `simple_patterns` from `RouterAgent.is_simple_query` (lines 39-45). -/
def simple_patterns : List String :=
  ["hello", "hi", "hey", "greetings",
   "thanks", "thank you", "thx",
   "ok", "okay", "got it",
   "bye", "goodbye", "see you",
   "help", "?"]

/-- `RouterAgent.is_simple_query` (router_agent.py lines 29-58): the stripped,
lowercased question is itself a simple pattern, or has at most two
whitespace-separated words each of which is a simple pattern. -/
def is_simple_query (question : String) : Bool :=
  let question_lower := pyLower (pyStrip question)
  if simple_patterns.contains question_lower then true
  else
    let words := pySplit question_lower
    if words.length ≤ 2 && words.all (fun w => simple_patterns.contains w) then true
    else false

/-- Risk keyword list from `RouterAgent._classify_deterministic` (line 65). -/
def riskKeywords : List String :=
  ["risk", "threat", "challenge", "concern", "vulnerability", "danger",
   "exposure", "uncertainty"]

/-- Financial keyword list (router_agent.py line 69). -/
def financialKeywords : List String :=
  ["revenue", "profit", "margin", "earnings", "financial", "income", "eps",
   "ebitda", "cash flow", "debt", "assets", "liabilities", "balance sheet",
   "cost", "expense", "sales"]

/-- Trend keyword list (router_agent.py line 73). -/
def trendKeywords : List String :=
  ["trend", "over time", "change", "growth", "historical", "compare year",
   "yoy", "year over year", "quarter", "qoq", "increase", "decrease",
   "trajectory"]

/-- Summary keyword list (router_agent.py line 77). -/
def summaryKeywords : List String :=
  ["summary", "overview", "summarize", "key points", "main", "highlight",
   "brief", "outlook", "strategy", "business"]

/-- `any(word in q_lower for word in kws)` over the lowercased question. -/
def hasKeyword (kws : List String) (q_lower : String) : Bool :=
  kws.any (fun w => pyIn w q_lower)

/-- `RouterAgent._classify_deterministic` (router_agent.py lines 60-81):
first-match-wins keyword tests in the order risk, financial, trend, summary. -/
def classify_deterministic (question : String) : String :=
  let q_lower := pyLower question
  if hasKeyword riskKeywords q_lower then "risk_analysis"
  else if hasKeyword financialKeywords q_lower then "financial_metrics"
  else if hasKeyword trendKeywords q_lower then "trend_analysis"
  else if hasKeyword summaryKeywords q_lower then "summary"
  else "general"

/-- `RouterAgent.classify` (router_agent.py lines 83-102): simple queries
short-circuit to "simple", otherwise deterministic keyword classification. -/
def classify (question : String) : String :=
  if is_simple_query question then "simple"
  else classify_deterministic question

/-! ## Python dict model

CPython dicts preserve insertion order; assignment overwrites in place,
otherwise appends.  We model them as association lists. -/

/-- A Python dict with string keys. -/
abbrev PyDict (V : Type) := List (String × V)

/-- `d.get(k)`. -/
def dictGet {V : Type} (k : String) : PyDict V → Option V
  | [] => none
  | (k', v) :: rest => if k' = k then some v else dictGet k rest

/-- `d[k] = v`: overwrite in place if present, else append at the end. -/
def dictSet {V : Type} (k : String) (v : V) : PyDict V → PyDict V
  | [] => [(k, v)]
  | (k', v') :: rest => if k' = k then (k, v) :: rest else (k', v') :: dictSet k v rest

/-- `d.pop(k, None)`: remove the entry for `k` if present. -/
def dictPop {V : Type} (k : String) : PyDict V → PyDict V
  | [] => []
  | (k', v) :: rest => if k' = k then rest else (k', v) :: dictPop k rest

/-! ## Cache / coalescing key derivations -/

/-- Model of `_create_request_key` (deduplication.py lines 17-37) up to the
final injective-serialization-and-hash step: the real key is
`sha256(json.dumps(params, sort_keys=True))[:16]` of the normalized parameter
dict; equal normalized parameters therefore give equal keys, so we model the
key by the normalized parameter tuple itself.  `extra` stands for the
name-sorted, `None`-filtered keyword arguments. -/
def create_request_key (ticker question : String) (extra : List (String × String)) :
    String × String × List (String × String) :=
  (pyUpper ticker, pyLower (pyStrip question), extra)

/-- Model of `_get_cache_key` (main.py lines 56-59) up to the md5 hash: the
pre-hash key string `f"{ticker.upper()}|{question.lower().strip()[:100]}|{model_provider}"`. -/
def get_cache_key (ticker question model_provider : String) : String :=
  pyUpper ticker ++ "|" ++ pyTake 100 (pyStrip (pyLower question)) ++ "|" ++ model_provider

/-- Model of `FastRAGAgent._cache_key` (fast_rag.py lines 54-57) up to the md5
hash: `f"{ticker}|{search_mode}|{question.lower().strip()[:100]}"` — note the
ticker is NOT normalized here. -/
def fast_cache_key (question ticker search_mode : String) : String :=
  ticker ++ "|" ++ search_mode ++ "|" ++ pyTake 100 (pyStrip (pyLower question))

/-- `RetrieverAgent._cache_key` (retriever_agent.py lines 83-84): a plain
f-string with no hashing and no normalization of any component. -/
def retriever_cache_key (question ticker sources search_mode : String) : String :=
  ticker ++ "|" ++ sources ++ "|" ++ search_mode ++ "|" ++ question

/-! ## Answer cache (main.py lines 51-75) -/

/-- `_ANSWER_CACHE_TTL` (main.py line 53). -/
def ANSWER_CACHE_TTL : Int := 900

/-- `_ANSWER_CACHE_MAX_SIZE` (main.py line 54).  Declared with the comment
"Limit cache size" but never referenced anywhere else in the source. -/
def ANSWER_CACHE_MAX_SIZE : Nat := 500

/-- The answer cache: key ↦ (storedAt, value). -/
abbrev AnswerCache (V : Type) := PyDict (Int × V)

/-- `_get_cached_answer` (main.py lines 61-71): absent or expired entries are
treated as missing; an expired entry is popped.  Returns the hit (if any) and
the possibly-purged cache. -/
def get_cached_answer {V : Type} (now : Int) (key : String) (c : AnswerCache V) :
    Option V × AnswerCache V :=
  match dictGet key c with
  | none => (none, c)
  | some (ts, v) =>
    if now - ts > ANSWER_CACHE_TTL then (none, dictPop key c) else (some v, c)

/-- `_set_cached_answer` (main.py lines 73-75):
`_ANSWER_CACHE[cache_key] = (time.time(), value)` — an unconditional dict
assignment; no eviction of any kind is performed and `_ANSWER_CACHE_MAX_SIZE`
is not consulted. -/
def set_cached_answer {V : Type} (now : Int) (key : String) (v : V) (c : AnswerCache V) :
    AnswerCache V :=
  dictSet key (now, v) c

/-! ## Retrieved chunks and the retrieval orchestrator (retriever_agent.py) -/

/-- Feature flags of `Settings` consulted by the orchestration layer. -/
structure Settings where
  enable_query_rewrite : Bool
  enable_rerank : Bool
  enable_section_boost : Bool
  enable_retrieval_cache : Bool
  retrieval_cache_ttl_seconds : Int
  deriving DecidableEq, Repr

/-- The chunk metadata fields the orchestration layer reads
(`metadata.get("section")`, `form_type`, `year`, `source`); a missing
`section` is modelled by `""` since the code immediately defaults it. -/
structure ChunkMeta where
  sectionName : String
  form_type : Option String
  year : Option Int
  source : Option String
  deriving DecidableEq, Repr

/-- A retrieved chunk dict: `id` (absent or falsy-empty modelled by
`none`/`some ""`), `text`, `metadata`. -/
structure Chunk where
  id : Option String
  text : String
  metadata : ChunkMeta
  deriving DecidableEq, Repr

/-- Metadata filter passed to the search collaborator
(retriever_agent.py lines 139-144): always the ticker, plus the source when
`sources != "both"`. -/
structure SFilter where
  ticker : String
  source : Option String
  deriving DecidableEq, Repr

/-- The external search collaborator: `(query, top_k, filter) ↦` results, or
an exception (modelled by `Except.error` carrying the message). -/
abbrev SearchFn := String → Nat → SFilter → Except String (List Chunk)

/-- Order-preserving string dedup with a `seen` accumulator
(retriever_agent.py lines 48-55). -/
def dedupStrings : List String → List String → List String
  | [], _ => []
  | q :: rest, seen =>
    if seen.contains q then dedupStrings rest seen
    else q :: dedupStrings rest (q :: seen)

/-- `RetrieverAgent._rewrite_queries` (retriever_agent.py lines 34-55):
deterministic heuristic expansion, original question first, order-preserving
dedup. -/
def rewrite_queries (s : Settings) (question ticker : String) : List String :=
  if !s.enable_query_rewrite then [question]
  else
    let lower_q := pyLower question
    let e1 := if ticker ≠ "" ∧ pyIn (pyLower ticker) lower_q = false
              then [ticker ++ " " ++ question] else []
    let e2 := if pyIn "10-k" lower_q = false then [question ++ " 10-K filing"] else []
    let e3 := if pyIn "risk" lower_q = true then [question ++ " risk factors"] else []
    dedupStrings ([question] ++ e1 ++ e2 ++ e3) []

/-- `RetrieverAgent._score` (retriever_agent.py lines 57-71): number of
distinct non-empty query tokens occurring in the chunk text, plus +2 for a
risk section under `risk_analysis` and +1 for an MD&A-flavoured section under
`trend_analysis` when section boost is enabled. -/
def score (s : Settings) (query : String) (chunk : Chunk) (task_type : String) : Nat :=
  let text := pyLower chunk.text
  let tokens := (pySplit (pyLower query)).dedup
  let overlap := (tokens.filter (fun t => t ≠ "" && pyIn t text)).length
  if s.enable_section_boost then
    let sec := pyLower chunk.metadata.sectionName
    let overlap :=
      if task_type = "risk_analysis" && pyIn "risk" sec then overlap + 2 else overlap
    if task_type = "trend_analysis" &&
        (["md&a", "management", "analysis"].any (fun k => pyIn k sec))
    then overlap + 1 else overlap
  else overlap

/-- One step of a stable descending insertion: the new element goes after
every element of score ≥ its own, modelling Python's stable
`sort(key=score, reverse=True)`. -/
def insertDescBy (x : Nat × Chunk) : List (Nat × Chunk) → List (Nat × Chunk)
  | [] => [x]
  | y :: ys => if y.1 < x.1 then x :: y :: ys else y :: insertDescBy x ys

/-- Stable descending sort by score (model of `scored.sort(key=lambda x: x[0],
reverse=True)`, retriever_agent.py line 80). -/
def sortScoredDesc (l : List (Nat × Chunk)) : List (Nat × Chunk) :=
  l.foldl (fun acc x => insertDescBy x acc) []

/-- `RetrieverAgent._rerank` (retriever_agent.py lines 73-81). -/
def rerank (s : Settings) (query : String) (results : List Chunk)
    (task_type : String) (top_k : Nat) : List Chunk :=
  if !s.enable_rerank || results.isEmpty then results.take top_k
  else
    ((sortScoredDesc (results.map (fun r => (score s query r task_type, r)))).take
      top_k).map Prod.snd

/-- The module-level `_RETRIEVAL_CACHE` of retriever_agent.py:
key ↦ (storedAt, chunks). -/
abbrev RCache := PyDict (Int × List Chunk)

/-- `RetrieverAgent._get_cached` (retriever_agent.py lines 86-97): `None`
unless the cache flag is on; expired entries (TTL clamped to ≥ 1) are popped. -/
def retriever_get_cached (s : Settings) (now : Int) (key : String) (c : RCache) :
    Option (List Chunk) × RCache :=
  if !s.enable_retrieval_cache then (none, c)
  else
    let ttl := max 1 s.retrieval_cache_ttl_seconds
    match dictGet key c with
    | none => (none, c)
    | some (ts, v) => if now - ts > ttl then (none, dictPop key c) else (some v, c)

/-- `RetrieverAgent._set_cached` (retriever_agent.py lines 99-102): writes
only when the cache flag is on. -/
def retriever_set_cached (s : Settings) (now : Int) (key : String)
    (v : List Chunk) (c : RCache) : RCache :=
  if s.enable_retrieval_cache then dictSet key (now, v) c else c

/-- Dedup of merged results by chunk id (retriever_agent.py lines 173-181):
first-seen-wins on truthy ids; a chunk with no id (or the falsy `""`) falls
back to `id(r)` — distinct dict objects, hence always kept. -/
def dedupById : List Chunk → List String → List Chunk
  | [], _ => []
  | r :: rest, seen =>
    match r.id with
    | some i =>
      if i = "" then r :: dedupById rest seen
      else if seen.contains i then dedupById rest seen
      else r :: dedupById rest (i :: seen)
    | none => r :: dedupById rest seen

/-- The metadata filter built at retriever_agent.py lines 139-144 (and
fast_rag.py lines 97-100). -/
def mkFilter (ticker sources : String) : SFilter :=
  { ticker := ticker, source := if sources ≠ "both" then some sources else none }

/-- Which collaborator method a given `search_mode` selects
(retriever_agent.py lines 159-170, fast_rag.py lines 103-114). -/
def clientFn (search hybrid : SearchFn) (search_mode : String) : SearchFn :=
  if search_mode = "hybrid" then hybrid else search

/-- The name of the collaborator method selected by `search_mode`, for call
logs. -/
def clientMethod (search_mode : String) : String :=
  if search_mode = "hybrid" then "hybrid_search" else "search"

/-- The sequential fan-out loop (retriever_agent.py lines 158-171): one
collaborator call per variant, results concatenated in variant order.  The
first component is the merged result, or the first raised exception — the loop
body is NOT individually guarded, so an exception aborts the remaining
variants and discards earlier items.  The second component logs the
collaborator calls actually issued, `(method, query)` in order, including the
failing one. -/
def runQueries (fn : SearchFn) (method : String) (top_k : Nat) (fd : SFilter) :
    List String → Except String (List Chunk) × List (String × String)
  | [] => (.ok [], [])
  | q :: rest =>
    match fn q top_k fd with
    | .error e => (.error e, [(method, q)])
    | .ok found =>
      let (r, log) := runQueries fn method top_k fd rest
      (match r with
       | .error e => .error e
       | .ok cs => .ok (found ++ cs), (method, q) :: log)

/-- Result of one `RetrieverAgent.retrieve` invocation: the returned chunks,
the retrieval cache afterwards, `last_cache_hit`, and the log of collaborator
calls issued. -/
structure RetrieveOut where
  chunks : List Chunk
  cache : RCache
  cacheHit : Bool
  calls : List (String × String)
  deriving Repr

/-- `RetrieverAgent.retrieve` (retriever_agent.py lines 104-190).  The
settings refresh + overrides of lines 128-136 are modelled by the caller
passing the effective `Settings`.  The whole body sits in one
`try/except` that returns `[]` on any exception; in this embedding the only
failure sources are the collaborator calls. -/
def retrieveImpl (s : Settings) (search hybrid : SearchFn) (now : Int)
    (cache : RCache) (question ticker sources search_mode : String)
    (top_k : Nat) (task_type : String) : RetrieveOut :=
  let fd := mkFilter ticker sources
  let cache_key := retriever_cache_key question ticker sources search_mode
  match retriever_get_cached s now cache_key cache with
  | (some cached, cache') =>
    { chunks := cached, cache := cache', cacheHit := true, calls := [] }
  | (none, cache') =>
    let queries := rewrite_queries s question ticker
    match runQueries (clientFn search hybrid search_mode) (clientMethod search_mode)
        top_k fd queries with
    | (.error _, log) =>
      { chunks := [], cache := cache', cacheHit := false, calls := log }
    | (.ok results, log) =>
      let deduped := dedupById results []
      let reranked := rerank s question deduped task_type top_k
      { chunks := reranked, cache := retriever_set_cached s now cache_key reranked cache',
        cacheHit := false, calls := log }

/-- One `retrieve` invocation as recorded by `runImpl`:
(search_mode, question, ticker, sources, top_k, task_type). -/
abbrev Attempt := String × String × String × String × Nat × String

/-- Result of `RetrieverAgent.run`. -/
structure RunOut where
  retrieved_chunks : List Chunk
  cache : RCache
  attempts : List Attempt
  calls : List (String × String)
  retrieval_cache_hit : Bool
  deriving Repr

/-- `RetrieverAgent.run` (retriever_agent.py lines 192-246): one `retrieve`
with `top_k` 8 for trend analysis else 6; if it returns no chunks and the mode
was "vector", exactly one further `retrieve` in "hybrid" mode — with the same
question, ticker, sources, `top_k` and overrides, but `task_type` left to its
default `"general"` (the fallback call at lines 226-233 does not pass it). -/
def runImpl (s : Settings) (search hybrid : SearchFn) (now : Int) (cache : RCache)
    (question ticker sources search_mode task_type : String) : RunOut :=
  let top_k := if task_type = "trend_analysis" then 8 else 6
  let first := retrieveImpl s search hybrid now cache question ticker sources
                 search_mode top_k task_type
  if first.chunks.isEmpty ∧ search_mode = "vector" then
    let second := retrieveImpl s search hybrid now first.cache question ticker sources
                    "hybrid" top_k "general"
    { retrieved_chunks := second.chunks, cache := second.cache,
      attempts := [(search_mode, question, ticker, sources, top_k, task_type),
                   ("hybrid", question, ticker, sources, top_k, "general")],
      calls := first.calls ++ second.calls,
      retrieval_cache_hit := second.cacheHit }
  else
    { retrieved_chunks := first.chunks, cache := first.cache,
      attempts := [(search_mode, question, ticker, sources, top_k, task_type)],
      calls := first.calls,
      retrieval_cache_hit := first.cacheHit }

/-! ## Fast RAG pipeline (fast_rag.py) -/

/-- The module-level `_RETRIEVAL_CACHE` of fast_rag.py: key ↦ (storedAt, chunks). -/
abbrev FCache := PyDict (Int × List Chunk)

/-- `FastRAGAgent._get_cached_chunks` (fast_rag.py lines 59-69).  Note: unlike
`RetrieverAgent._get_cached`, this read path does NOT consult
`enable_retrieval_cache`; expired entries are popped. -/
def fast_get_cached_chunks (s : Settings) (now : Int) (key : String) (c : FCache) :
    Option (List Chunk) × FCache :=
  match dictGet key c with
  | none => (none, c)
  | some (ts, v) =>
    if now - ts > s.retrieval_cache_ttl_seconds then (none, dictPop key c) else (some v, c)

/-- `FastRAGAgent._set_cached_chunks` (fast_rag.py lines 71-74): the write path
is guarded by `enable_retrieval_cache`. -/
def fast_set_cached_chunks (s : Settings) (now : Int) (key : String)
    (v : List Chunk) (c : FCache) : FCache :=
  if s.enable_retrieval_cache then dictSet key (now, v) c else c

/-- Result of one `FastRAGAgent.retrieve` invocation. -/
structure FastRetrieveOut where
  chunks : List Chunk
  cache : FCache
  calls : List (String × String)
  deriving Repr

/-- `FastRAGAgent.retrieve` (fast_rag.py lines 76-123): cache check first
(unconditionally), then a single search or hybrid-search collaborator call;
the whole body is in a `try/except` returning `[]` on any exception. -/
def fastRetrieveImpl (s : Settings) (search hybrid : SearchFn) (now : Int)
    (cache : FCache) (question ticker search_mode sources : String)
    (top_k : Nat) : FastRetrieveOut :=
  let cache_key := fast_cache_key question ticker search_mode
  match fast_get_cached_chunks s now cache_key cache with
  | (some cached, cache') => { chunks := cached, cache := cache', calls := [] }
  | (none, cache') =>
    let fd := mkFilter ticker sources
    let method := clientMethod search_mode
    match clientFn search hybrid search_mode question top_k fd with
    | .error _ => { chunks := [], cache := cache', calls := [(method, question)] }
    | .ok results =>
      { chunks := results,
        cache := fast_set_cached_chunks s now cache_key results cache',
        calls := [(method, question)] }

/-- `FastRAGAgent._format_chunks` (fast_rag.py lines 125-136). -/
def format_chunks (chunks : List Chunk) (max_chunks : Nat) : String :=
  if chunks.isEmpty then "No relevant documents found."
  else
    String.intercalate "\n"
      (((chunks.take max_chunks).enum).map (fun p =>
        "[" ++ toString (p.1 + 1) ++ "] " ++ p.2.metadata.form_type.getD "10-K" ++
        ": " ++ pyTake 300 p.2.text))

/-- A citation dict (fast_rag.py lines 142-149). -/
structure Citation where
  ticker : String
  form_type : String
  year : Option Int
  chunk_index : Nat
  source : String
  deriving DecidableEq, Repr

/-- `FastRAGAgent._extract_citations` (fast_rag.py lines 138-150). -/
def extract_citations (chunks : List Chunk) (ticker : String) : List Citation :=
  ((chunks.take 5).enum).map (fun p =>
    { ticker := ticker, form_type := p.2.metadata.form_type.getD "10-K",
      year := p.2.metadata.year, chunk_index := p.1,
      source := p.2.metadata.source.getD "sec" })

/-- The `retrieval_flags` dict built at fast_rag.py lines 260-266
(`reranker_model` defaults to "builtin" via `getattr`). -/
structure Flags where
  enable_rerank : Bool
  enable_query_rewrite : Bool
  enable_retrieval_cache : Bool
  enable_section_boost : Bool
  reranker_model : String
  deriving DecidableEq, Repr

/-- Flags as reported by the pipeline from its settings. -/
def flagsOf (s : Settings) (reranker_model : String) : Flags :=
  { enable_rerank := s.enable_rerank, enable_query_rewrite := s.enable_query_rewrite,
    enable_retrieval_cache := s.enable_retrieval_cache,
    enable_section_boost := s.enable_section_boost, reranker_model := reranker_model }

/-- The credential-failure sniff test used twice in fast_rag.py
(lines 229 and 274): `"401" in msg or "authentication" in msg.lower() or
("invalid" in msg.lower() and "key" in msg.lower())`. -/
def isAuthError (msg : String) : Bool :=
  pyIn "401" msg || pyIn "authentication" (pyLower msg) ||
    (pyIn "invalid" (pyLower msg) && pyIn "key" (pyLower msg))

/-- The generation collaborator: (question, ticker, formatted chunks) ↦ answer
text, or a raised error carrying a message. -/
abbrev LlmFn := String → String → String → Except String String

/-- The dict returned by `FastRAGAgent.process`; fields absent from a given
return site are `none`. -/
structure ProcDict where
  answer : String
  citations : List Citation
  task_type : Option String
  error : Option String
  retrieval_cache_hit : Option Bool
  retrieved_chunks : Option (List Chunk)
  retrieval_flags : Option Flags
  deriving Repr

/-- The canned response for `simple` questions (fast_rag.py lines 188-193). -/
def simpleCannedAnswer : String :=
  "Hello! I can help you analyze SEC filings. Ask me about financial metrics, risks, or business strategies."

/-- The API-key remediation dict (fast_rag.py lines 233-237 / 276-280 for
openai, 240-244 / 281-286 for anthropic); `none` for other providers, in which
case both `if/elif` chains fall through. -/
def authErrorDict (provider : String) : Option ProcDict :=
  if provider = "openai" then
    some { answer := "❌ OpenAI API key is invalid or expired. Please update OPENAI_API_KEY in backend/.env file. Get a valid key from https://platform.openai.com/api-keys",
           citations := [], task_type := none, error := some "Invalid OpenAI API Key",
           retrieval_cache_hit := none, retrieved_chunks := none, retrieval_flags := none }
  else if provider = "anthropic" then
    some { answer := "❌ Anthropic API key is invalid or expired. Please update ANTHROPIC_API_KEY in backend/.env file. Get a valid key from https://console.anthropic.com/settings/keys",
           citations := [], task_type := none, error := some "Invalid Anthropic API Key",
           retrieval_cache_hit := none, retrieved_chunks := none, retrieval_flags := none }
  else none

/-- Result of one `FastRAGAgent.process` invocation: the returned dict, the
fast retrieval cache afterwards, the search-collaborator call log and the
number of generation-collaborator calls. -/
structure ProcOut where
  result : ProcDict
  cache : FCache
  calls : List (String × String)
  llmCalls : Nat
  deriving Repr

/-- `FastRAGAgent.process` (fast_rag.py lines 152-292).  Overrides (lines
180-183) are modelled by the caller passing the effective `Settings`.  The
classifier runs first; `simple` questions return the canned dict before any
retrieval or generation.  Empty retrieval returns the "couldn't find" dict —
with NO hybrid retry.  A generation failure is absorbed: an API-key-flavoured
message yields the provider remediation dict, anything else reaches the outer
handler and yields the generic error dict; no exception propagates. -/
def fastProcessImpl (s : Settings) (provider : String) (search hybrid : SearchFn)
    (llm : LlmFn) (now : Int) (cache : FCache)
    (ticker question search_mode sources : String) : ProcOut :=
  let task_type := classify question
  if task_type = "simple" then
    { result := { answer := simpleCannedAnswer, citations := [],
                  task_type := some "simple", error := none,
                  retrieval_cache_hit := some false, retrieved_chunks := none,
                  retrieval_flags := none },
      cache := cache, calls := [], llmCalls := 0 }
  else
    let r := fastRetrieveImpl s search hybrid now cache question ticker search_mode sources 6
    if r.chunks.isEmpty then
      { result := { answer := "I couldn't find relevant information about " ++ ticker ++
                      " in the SEC filings. Please try fetching the latest filings first.",
                    citations := [], task_type := some task_type, error := none,
                    retrieval_cache_hit := some false, retrieved_chunks := none,
                    retrieval_flags := none },
        cache := r.cache, calls := r.calls, llmCalls := 0 }
    else
      match llm question ticker (format_chunks r.chunks 3) with
      | .ok content =>
        { result := { answer := content, citations := extract_citations r.chunks ticker,
                      task_type := some task_type, error := none,
                      retrieval_cache_hit := some false,
                      retrieved_chunks := some r.chunks,
                      retrieval_flags := some (flagsOf s "builtin") },
          cache := r.cache, calls := r.calls, llmCalls := 1 }
      | .error e =>
        match (if isAuthError e then authErrorDict provider else none) with
        | some d => { result := d, cache := r.cache, calls := r.calls, llmCalls := 1 }
        | none =>
          { result := { answer := "Error processing question: " ++ e, citations := [],
                        task_type := none, error := some e, retrieval_cache_hit := none,
                        retrieved_chunks := none, retrieval_flags := none },
            cache := r.cache, calls := r.calls, llmCalls := 1 }

/-! ## Compare endpoint (main.py lines 773-897) -/

/-- Ticker normalization of the compare endpoint (main.py lines 787-791):
strip, uppercase, discard blanks, drop duplicates, keep first-seen order. -/
def normalize_tickers (ts : List String) : List String :=
  ts.foldl (fun acc t =>
    let t_upper := pyUpper (pyStrip t)
    if t_upper ≠ "" && !acc.contains t_upper then acc ++ [t_upper] else acc) []

/-- A `CompareResult` response item (models.py / main.py lines 830-870). -/
structure CompareResult where
  ticker : String
  answer : String
  flags_summary : String
  cache_hit : Bool
  deriving DecidableEq, Repr

/-- `summarize_flags` (main.py lines 807-816). -/
def summarize_flags (f : Flags) : String :=
  String.intercalate ", "
    ["rerank=" ++ (if f.enable_rerank then "on" else "off"),
     "rewrite=" ++ (if f.enable_query_rewrite then "on" else "off"),
     "cache=" ++ (if f.enable_retrieval_cache then "on" else "off"),
     "section_boost=" ++ (if f.enable_section_boost then "on" else "off"),
     "reranker=" ++ f.reranker_model]

/-- What the compare endpoint stores in the answer cache
(main.py line 860): `{"answer": answer, "flags": flags}`. -/
structure CachedAnswer where
  answer : String
  flags : Flags
  deriving Repr

/-- Result of one `process_ticker` invocation (main.py lines 819-870). -/
structure TickerOut where
  result : CompareResult
  acache : AnswerCache CachedAnswer
  fcache : FCache
  calls : List (String × String)
  llmCalls : Nat
  deriving Repr

/-- `process_ticker` (main.py lines 819-870): answer-cache lookup first — a
hit short-circuits the pipeline with `flags_summary = "cached=true"` and
`cache_hit = True`; otherwise the fast pipeline runs, an empty answer is
replaced by "No answer generated", the flags fall back to the request
overrides, and the (possibly error-flavoured) answer is written back to the
answer cache. -/
def process_ticker (s : Settings) (provider : String) (search hybrid : SearchFn)
    (llm : LlmFn) (now : Int) (acache : AnswerCache CachedAnswer) (fcache : FCache)
    (ticker question search_mode sources : String) (overridesFlags : Flags) :
    TickerOut :=
  let cache_key := get_cache_key ticker question provider
  match get_cached_answer now cache_key acache with
  | (some cached, acache') =>
    { result := { ticker := ticker, answer := cached.answer,
                  flags_summary := "cached=true", cache_hit := true },
      acache := acache', fcache := fcache, calls := [], llmCalls := 0 }
  | (none, acache') =>
    let p := fastProcessImpl s provider search hybrid llm now fcache
               ticker question search_mode sources
    let answer := if p.result.answer = "" then "No answer generated" else p.result.answer
    let flags := p.result.retrieval_flags.getD overridesFlags
    let flag_summary := summarize_flags flags
    let cache_hit := p.result.retrieval_cache_hit.getD false
    { result := { ticker := ticker, answer := answer,
                  flags_summary := flag_summary, cache_hit := cache_hit },
      acache := set_cached_answer now cache_key { answer := answer, flags := flags } acache',
      fcache := p.cache, calls := p.calls, llmCalls := p.llmCalls }

/-- The collected state of the per-ticker fan-out. -/
structure LoopOut where
  results : List CompareResult
  acache : AnswerCache CachedAnswer
  fcache : FCache
  calls : List (String × String)
  llmCalls : Nat
  deriving Repr

/-- The per-ticker fan-out of the compare endpoint (main.py lines 872-881).
`asyncio.gather` returns results positionally — in the order of
`unique_tickers`, independent of completion order — and the per-ticker tasks
share the two module caches; we model the fan-out with the bounded semaphore
as a left-to-right traversal threading the caches. -/
def compareLoop (s : Settings) (provider : String) (search hybrid : SearchFn)
    (llm : LlmFn) (now : Int) (question search_mode sources : String)
    (overridesFlags : Flags) :
    List String → AnswerCache CachedAnswer → FCache → LoopOut
  | [], a, f => ⟨[], a, f, [], 0⟩
  | t :: rest, a, f =>
    let o := process_ticker s provider search hybrid llm now a f
               t question search_mode sources overridesFlags
    let restOut :=
      compareLoop s provider search hybrid llm now question search_mode sources
        overridesFlags rest o.acache o.fcache
    ⟨o.result :: restOut.results, restOut.acache, restOut.fcache,
     o.calls ++ restOut.calls, o.llmCalls + restOut.llmCalls⟩

/-- Result of one compare run: the HTTP outcome (`.error 400` for rejected
input), the two caches afterwards and the collaborator call log. -/
structure CompareOut where
  response : Except Nat (List CompareResult)
  acache : AnswerCache CachedAnswer
  fcache : FCache
  calls : List (String × String)
  llmCalls : Nat
  deriving Repr

/-- The `compare` endpoint (main.py lines 773-897): reject fewer than two raw
tickers, normalize, reject fewer than two distinct tickers — both rejections
happen before any cache access or pipeline call — then fan out per ticker and
collect results in normalized-ticker order. -/
def compareImpl (s : Settings) (provider : String) (search hybrid : SearchFn)
    (llm : LlmFn) (now : Int) (acache : AnswerCache CachedAnswer) (fcache : FCache)
    (tickers : List String) (question search_mode sources : String)
    (overridesFlags : Flags) : CompareOut :=
  if tickers.length < 2 then
    { response := .error 400, acache := acache, fcache := fcache, calls := [], llmCalls := 0 }
  else
    let unique_tickers := normalize_tickers tickers
    if unique_tickers.length < 2 then
      { response := .error 400, acache := acache, fcache := fcache, calls := [], llmCalls := 0 }
    else
      let o := compareLoop s provider search hybrid llm now question search_mode sources
                 overridesFlags unique_tickers acache fcache
      { response := .ok o.results, acache := o.acache, fcache := o.fcache,
        calls := o.calls, llmCalls := o.llmCalls }

/-! ## Request coalescer (deduplication.py)

`deduplicate_request` runs on the asyncio event loop: execution is
cooperatively scheduled, code between two `await` points is atomic, and
`asyncio.Lock` is NOT reentrant — `acquire()` suspends whenever the lock is
held, even when the would-be acquirer is the current holder, and only an
explicit `release()` frees it.  We model the function for two concurrent
callers sharing one request fingerprint (the situation of claim C1 with N = 2,
and of the repository's own test
`test_deduplication_prevents_duplicate_requests`) as a small-step transition
system whose atomic steps are exactly the code sections between `await`
points.  `pending` says whether the shared fingerprint is in
`_pending_requests`. -/

/-- Control locations of one `deduplicate_request` caller, at its suspension
points:
* `entry` — before the outer `async with _dedup_lock` (line 60) has acquired;
* `awaitingInner` — holding the lock, suspended in the inner
  `async with _dedup_lock` of line 67 (the "release lock before awaiting"
  attempt, which re-acquires instead);
* `awaitingExisting` — suspended at `await existing_task` (line 71);
* `awaitingTask` — registered as the single executor, suspended at
  `await task` (line 82);
* `finallyAcquire` — in the `finally` block, suspended at the
  `async with _dedup_lock` of line 86;
* `finished` — returned;
* `errored` — raised `RuntimeError` (releasing an unheld lock). -/
inductive Loc where
  | entry
  | awaitingInner
  | awaitingExisting
  | awaitingTask
  | finallyAcquire
  | finished
  | errored
  deriving DecidableEq, Repr

/-- A configuration of the two-caller coalescer system: the lock holder
(caller 1, caller 2 or free), whether the shared fingerprint is registered in
`_pending_requests`, each caller's control location, and the state of the
spawned handler task (`handlerRuns` counts handler executions). -/
structure Config where
  lock : Option Nat
  pending : Bool
  loc1 : Loc
  loc2 : Loc
  taskSpawned : Bool
  taskDone : Bool
  handlerRuns : Nat
  deriving DecidableEq, Repr

/-- Atomic transitions of the two-caller coalescer system.  For caller `i`:
* `createᵢ` — lines 60-79 when the fingerprint is not pending: acquire the
  free lock, miss the pending table, spawn the handler task, register the
  fingerprint, release the lock at the `async with` exit, suspend at
  `await task`;
* `dedupᵢ` — lines 60-67 when the fingerprint is pending: acquire the free
  lock, hit the pending table, then suspend at the INNER
  `async with _dedup_lock` — still holding the lock;
* `innerᵢ` — the inner acquire at line 67 can proceed only when the lock is
  free; it then immediately releases (`pass`) and suspends at
  `await existing_task`;
* `existingᵢ` — the awaited task resolved; the `return` then exits the outer
  `async with`, whose release of the (already released) lock raises
  `RuntimeError` — modelled as `errored` (this location is unreachable in the
  traces below);
* `awaitTaskᵢ` — `await task` resolved; control reaches the `finally` block
  and suspends at its lock acquire;
* `finᵢ` — the `finally` acquire proceeds when the lock is free: pop the
  fingerprint, release, return;
* `taskRun` — the spawned handler task runs to completion. -/
inductive DStep : Config → Config → Prop where
  | create1 {c : Config} : c.loc1 = .entry → c.lock = none → c.pending = false →
      DStep c { c with loc1 := .awaitingTask, pending := true, taskSpawned := true }
  | create2 {c : Config} : c.loc2 = .entry → c.lock = none → c.pending = false →
      DStep c { c with loc2 := .awaitingTask, pending := true, taskSpawned := true }
  | dedup1 {c : Config} : c.loc1 = .entry → c.lock = none → c.pending = true →
      DStep c { c with loc1 := .awaitingInner, lock := some 1 }
  | dedup2 {c : Config} : c.loc2 = .entry → c.lock = none → c.pending = true →
      DStep c { c with loc2 := .awaitingInner, lock := some 2 }
  | inner1 {c : Config} : c.loc1 = .awaitingInner → c.lock = none →
      DStep c { c with loc1 := .awaitingExisting }
  | inner2 {c : Config} : c.loc2 = .awaitingInner → c.lock = none →
      DStep c { c with loc2 := .awaitingExisting }
  | existing1 {c : Config} : c.loc1 = .awaitingExisting → c.taskDone = true →
      DStep c { c with loc1 := .errored }
  | existing2 {c : Config} : c.loc2 = .awaitingExisting → c.taskDone = true →
      DStep c { c with loc2 := .errored }
  | awaitTask1 {c : Config} : c.loc1 = .awaitingTask → c.taskDone = true →
      DStep c { c with loc1 := .finallyAcquire }
  | awaitTask2 {c : Config} : c.loc2 = .awaitingTask → c.taskDone = true →
      DStep c { c with loc2 := .finallyAcquire }
  | fin1 {c : Config} : c.loc1 = .finallyAcquire → c.lock = none →
      DStep c { c with loc1 := .finished, pending := false }
  | fin2 {c : Config} : c.loc2 = .finallyAcquire → c.lock = none →
      DStep c { c with loc2 := .finished, pending := false }
  | taskRun {c : Config} : c.taskSpawned = true → c.taskDone = false →
      DStep c { c with taskDone := true, handlerRuns := c.handlerRuns + 1 }

/-- The initial configuration: lock free, nothing pending, both callers about
to enter `deduplicate_request`. -/
def dedupInit : Config :=
  { lock := none, pending := false, loc1 := .entry, loc2 := .entry,
    taskSpawned := false, taskDone := false, handlerRuns := 0 }

/-- The configuration reached when caller 1 created the task, caller 2
attached as a duplicate, the handler ran to completion, and caller 1 resumed
into its `finally` block: caller 2 holds the lock while suspended trying to
re-acquire it, and caller 1 is suspended waiting for the same lock. -/
def dedupStuck : Config :=
  { lock := some 2, pending := true, loc1 := .finallyAcquire,
    loc2 := .awaitingInner, taskSpawned := true, taskDone := true,
    handlerRuns := 1 }

/-! ## Concrete scenarios used by counterexamples and witnesses -/

/-- A family of pairwise-distinct cache keys (`n` copies of `a`). -/
def c3key (n : Nat) : String := String.mk (List.replicate n 'a')

/-- A 101-character question: 100 copies of `a` followed by `x`. -/
def q100x : String := String.mk (List.replicate 100 'a' ++ ['x'])

/-- A 101-character question: 100 copies of `a` followed by `y`. -/
def q100y : String := String.mk (List.replicate 100 'a' ++ ['y'])

/-- Settings with every orchestration feature off (the `make_settings`
defaults of the repository's own tests). -/
def plainSettings : Settings :=
  { enable_query_rewrite := false, enable_rerank := false,
    enable_section_boost := false, enable_retrieval_cache := false,
    retrieval_cache_ttl_seconds := 300 }

/-- Settings with query expansion on and everything else off. -/
def cexSettings : Settings :=
  { plainSettings with enable_query_rewrite := true }

/-- The chunk the first query variant returns in the C2 scenario. -/
def cexChunk : Chunk :=
  { id := some "c1", text := "risk factors text",
    metadata := { sectionName := "", form_type := none, year := none, source := none } }

/-- Search collaborator that succeeds (with `cexChunk`) on the original
question and raises on every expanded variant. -/
def cexSearch : SearchFn := fun q _ _ =>
  if q = "risk outlook" then .ok [cexChunk] else .error "Pinecone connection failed"

/-- Hybrid collaborator that always raises. -/
def cexHybrid : SearchFn := fun _ _ _ => .error "Pinecone connection failed"

/-- The chunk only hybrid search can find in the C5 scenario. -/
def c5Chunk : Chunk :=
  { id := some "h1", text := "hybrid only result",
    metadata := { sectionName := "", form_type := none, year := none, source := none } }

/-- Vector search collaborator returning zero items. -/
def c5Search : SearchFn := fun _ _ _ => .ok []

/-- Hybrid search collaborator returning one item. -/
def c5Hybrid : SearchFn := fun _ _ _ => .ok [c5Chunk]

/-- Generation collaborator that always answers. -/
def c5Llm : LlmFn := fun _ _ _ => .ok "generated answer"

/-- A chunk every search finds in the compare scenarios. -/
def w8Chunk : Chunk :=
  { id := some "s1", text := "sales revenue text",
    metadata := { sectionName := "", form_type := none, year := none, source := none } }

/-- Search collaborator returning `w8Chunk` for every query. -/
def w8Search : SearchFn := fun _ _ _ => .ok [w8Chunk]

/-- Generation collaborator that fails (with a non-credential message) for
ticker "BAD" and answers for every other ticker. -/
def w8Llm : LlmFn := fun _ t _ =>
  if t = "BAD" then .error "upstream model exploded" else .ok "fine answer"

/-- The overrides-derived flags dict of the compare scenarios. -/
def w8Flags : Flags :=
  { enable_rerank := false, enable_query_rewrite := false,
    enable_retrieval_cache := false, enable_section_boost := false,
    reranker_model := "builtin" }

/-- Trace configuration: caller 1 registered the fingerprint, spawned the
handler and is awaiting it. -/
def cfg1 : Config :=
  { lock := none, pending := true, loc1 := .awaitingTask, loc2 := .entry,
    taskSpawned := true, taskDone := false, handlerRuns := 0 }

/-- Trace configuration: caller 2 found the fingerprint pending and is now
suspended re-acquiring the lock it holds. -/
def cfg2 : Config :=
  { lock := some 2, pending := true, loc1 := .awaitingTask, loc2 := .awaitingInner,
    taskSpawned := true, taskDone := false, handlerRuns := 0 }

/-- Trace configuration: the handler task has run to completion (once). -/
def cfg3 : Config :=
  { lock := some 2, pending := true, loc1 := .awaitingTask, loc2 := .awaitingInner,
    taskSpawned := true, taskDone := true, handlerRuns := 1 }

/-!
# Theorems

Helper lemmas first, then one theorem per claim (with witnesses and
counterexamples where applicable).
-/

/-- Inserting a key that is not present grows a dict by exactly one entry —
nothing is evicted. -/
theorem dictSet_length_of_not_mem {V : Type} (k : String) (v : V) (c : PyDict V)
    (h : k ∉ c.map Prod.fst) : (dictSet k v c).length = c.length + 1 := by
  induction c with
  | nil => rfl
  | cons e rest ih =>
    simp only [List.map_cons, List.mem_cons] at h
    push_neg at h
    simp [dictSet, Ne.symm h.1, ih h.2]

/-- A key of a dict after an insert is an old key or the inserted one. -/
theorem mem_keys_dictSet {V : Type} (x k : String) (v : V) :
    ∀ c : PyDict V, x ∈ (dictSet k v c).map Prod.fst → x ∈ c.map Prod.fst ∨ x = k
  | [] => by
    intro hx
    simp [dictSet] at hx
    exact Or.inr hx
  | e :: rest => by
    intro hx
    simp only [dictSet] at hx
    by_cases he : e.1 = k
    · rw [if_pos he] at hx
      simp only [List.map_cons, List.mem_cons] at hx ⊢
      tauto
    · rw [if_neg he] at hx
      simp only [List.map_cons, List.mem_cons] at hx ⊢
      rcases hx with h | h
      · tauto
      · rcases mem_keys_dictSet x k v rest h with h' | h' <;> tauto

/-- Folding fresh, pairwise-distinct keys through `_set_cached_answer` grows
the answer cache by one entry per key: no insertion ever evicts. -/
theorem foldl_set_cached_length {V : Type} (v : V) :
    ∀ (ks : List String) (c : AnswerCache V), ks.Nodup →
      (∀ k ∈ ks, k ∉ c.map Prod.fst) →
      (ks.foldl (fun c k => set_cached_answer 0 k v c) c).length =
        c.length + ks.length
  | [], c, _, _ => by simp
  | k :: ks, c, hnd, hfresh => by
    simp only [List.foldl_cons]
    have hk : k ∉ c.map Prod.fst := hfresh k (by simp)
    have hrec := foldl_set_cached_length v ks (set_cached_answer 0 k v c)
      (List.Nodup.of_cons hnd)
      (by
        intro k' hk' hmem
        rcases mem_keys_dictSet k' k (0, v) c hmem with h | h
        · exact hfresh k' (by simp [hk']) h
        · subst h
          exact (List.nodup_cons.mp hnd).1 hk')
    rw [hrec]
    have hlen : (set_cached_answer 0 k v c).length = c.length + 1 :=
      dictSet_length_of_not_mem k (0, v) c hk
    rw [hlen]
    simp [List.length_cons]
    omega

/-- C3: the claim says the final-answer cache never exceeds its configured
maximum of 500 entries because an insertion that would exceed the bound first
evicts an entry.  The code violates this: `_set_cached_answer` inserts
unconditionally and `_ANSWER_CACHE_MAX_SIZE` is never consulted, so 501
insertions with distinct keys leave 501 entries in the cache — more than
`ANSWER_CACHE_MAX_SIZE` — with no eviction ever happening. -/
theorem answer_cache_exceeds_bound :
    ANSWER_CACHE_MAX_SIZE <
      (((List.range 501).map c3key).foldl
        (fun c k => set_cached_answer 0 k 0 c) ([] : AnswerCache Nat)).length := by
  have hinj : Function.Injective c3key := by
    intro m n h
    have := congrArg (fun s => s.data.length) h
    simpa [c3key] using this
  have hnd : ((List.range 501).map c3key).Nodup :=
    (List.nodup_range 501).map hinj
  have hlen := foldl_set_cached_length (0 : Nat) ((List.range 501).map c3key) [] hnd
    (by simp)
  rw [hlen]
  simp [ANSWER_CACHE_MAX_SIZE]

/-- C1: the claim says that for concurrent identical requests the handler runs
exactly once and every caller completes with the shared result.  In the code,
the duplicate caller deadlocks instead: from the initial two-caller
configuration the system reaches (by the exhibited schedule) a configuration
in which no further step is possible — caller 2 is suspended re-acquiring the
non-reentrant `_dedup_lock` that it itself still holds (deduplication.py line
67 inside the `async with` of line 60), and caller 1 is suspended on the same
lock in its `finally` block — yet neither caller has returned (the handler did
run exactly once).  Every caller of `deduplicate_request` therefore hangs
forever in this schedule, contradicting the claim (and the repository's own
test `test_deduplication_prevents_duplicate_requests`). -/
theorem dedup_coalescer_deadlock :
    Relation.ReflTransGen DStep dedupInit dedupStuck ∧
    (¬ ∃ c, DStep dedupStuck c) ∧
    dedupStuck.handlerRuns = 1 ∧
    dedupStuck.loc1 ≠ Loc.finished ∧ dedupStuck.loc2 ≠ Loc.finished := by
  refine ⟨?_, ?_, rfl, by decide, by decide⟩
  · have s1 : DStep dedupInit cfg1 := by exact DStep.create1 rfl rfl rfl
    have s2 : DStep cfg1 cfg2 := by exact DStep.dedup2 rfl rfl rfl
    have s3 : DStep cfg2 cfg3 := by exact DStep.taskRun rfl rfl
    have s4 : DStep cfg3 dedupStuck := by exact DStep.awaitTask1 rfl rfl
    exact (((Relation.ReflTransGen.refl.tail s1).tail s2).tail s3).tail s4
  · rintro ⟨c, h⟩
    cases h <;> simp_all [dedupStuck]

/-- C6: `classify` tests categories in the fixed order simple, risk_analysis,
financial_metrics, trend_analysis, summary, general, first match wins
(keyword categories by case-insensitive substring tests); in particular a
question containing both "risk" and "revenue" classifies as risk_analysis. -/
theorem classify_priority_order (q : String) :
    (is_simple_query q = true → classify q = "simple")
  ∧ (is_simple_query q = false → hasKeyword riskKeywords (pyLower q) = true →
      classify q = "risk_analysis")
  ∧ (is_simple_query q = false → hasKeyword riskKeywords (pyLower q) = false →
      hasKeyword financialKeywords (pyLower q) = true →
      classify q = "financial_metrics")
  ∧ (is_simple_query q = false → hasKeyword riskKeywords (pyLower q) = false →
      hasKeyword financialKeywords (pyLower q) = false →
      hasKeyword trendKeywords (pyLower q) = true →
      classify q = "trend_analysis")
  ∧ (is_simple_query q = false → hasKeyword riskKeywords (pyLower q) = false →
      hasKeyword financialKeywords (pyLower q) = false →
      hasKeyword trendKeywords (pyLower q) = false →
      hasKeyword summaryKeywords (pyLower q) = true →
      classify q = "summary")
  ∧ (is_simple_query q = false → hasKeyword riskKeywords (pyLower q) = false →
      hasKeyword financialKeywords (pyLower q) = false →
      hasKeyword trendKeywords (pyLower q) = false →
      hasKeyword summaryKeywords (pyLower q) = false →
      classify q = "general")
  ∧ (is_simple_query q = false → pyIn "risk" (pyLower q) = true →
      pyIn "revenue" (pyLower q) = true → classify q = "risk_analysis") := by
  refine ⟨?_, ?_, ?_, ?_, ?_, ?_, ?_⟩
  · intro h1
    simp only [classify, h1, if_true]
  · intro h1 h2
    simp only [classify, classify_deterministic, h1, h2, Bool.false_eq_true,
      if_false, if_true]
  · intro h1 h2 h3
    simp only [classify, classify_deterministic, h1, h2, h3, Bool.false_eq_true,
      if_false, if_true]
  · intro h1 h2 h3 h4
    simp only [classify, classify_deterministic, h1, h2, h3, h4, Bool.false_eq_true,
      if_false, if_true]
  · intro h1 h2 h3 h4 h5
    simp only [classify, classify_deterministic, h1, h2, h3, h4, h5,
      Bool.false_eq_true, if_false, if_true]
  · intro h1 h2 h3 h4 h5
    simp only [classify, classify_deterministic, h1, h2, h3, h4, h5,
      Bool.false_eq_true, if_false, if_true]
  · intro h1 h2 h3
    have hk : hasKeyword riskKeywords (pyLower q) = true := by
      simp [hasKeyword, riskKeywords, h2]
    simp only [classify, classify_deterministic, h1, hk, Bool.false_eq_true,
      if_false, if_true]

/-- Witness for C6 at the concrete question "Revenue risk overview", which
contains a risk keyword, a financial keyword and a summary keyword. -/
theorem classify_priority_order_witness :
    is_simple_query "Revenue risk overview" = false ∧
    pyIn "risk" (pyLower "Revenue risk overview") = true ∧
    pyIn "revenue" (pyLower "Revenue risk overview") = true ∧
    classify "Revenue risk overview" = "risk_analysis" :=
  ⟨by decide, by decide, by decide,
   (classify_priority_order "Revenue risk overview").2.2.2.2.2.2 (by decide)
     (by decide) (by decide)⟩

/-- Counterexample for C4: the claim says the deduplication fingerprint, the
answer-cache key and the retrieval-cache key all normalize identically
(ticker case, question whitespace, truncation past 100 characters).  In the
code, `RetrieverAgent._cache_key` performs no normalization at all — ticker
case or a leading space in the question changes the key — and the
deduplication fingerprint does not truncate the question at 100 characters:
two questions agreeing on their first 100 characters yield different
fingerprint parameters. -/
theorem key_normalization_counterexample :
    retriever_cache_key "what is revenue" "aapl" "both" "vector" ≠
      retriever_cache_key "what is revenue" "AAPL" "both" "vector"
  ∧ retriever_cache_key " what is revenue" "AAPL" "both" "vector" ≠
      retriever_cache_key "what is revenue" "AAPL" "both" "vector"
  ∧ pyTake 100 q100x = pyTake 100 q100y
  ∧ create_request_key "AAPL" q100x [] ≠ create_request_key "AAPL" q100y [] :=
  ⟨by decide, by decide, by decide, by decide⟩

/-- C4 (amended): the deduplication fingerprint normalizes ticker case and
question whitespace/case (but does not truncate); the answer-cache key
normalizes ticker case and question whitespace/case and truncates the
question to its first 100 characters; the FastRAG retrieval-cache key
normalizes the question the same way but leaves the ticker raw; the
`RetrieverAgent` retrieval-cache key (see the counterexample) normalizes
nothing. -/
theorem key_normalization_amended :
    (∀ t1 t2 q1 q2 e, pyUpper t1 = pyUpper t2 →
        pyLower (pyStrip q1) = pyLower (pyStrip q2) →
        create_request_key t1 q1 e = create_request_key t2 q2 e)
  ∧ (∀ t1 t2 q1 q2 m, pyUpper t1 = pyUpper t2 →
        pyTake 100 (pyStrip (pyLower q1)) = pyTake 100 (pyStrip (pyLower q2)) →
        get_cache_key t1 q1 m = get_cache_key t2 q2 m)
  ∧ (∀ t q1 q2 m, pyTake 100 (pyStrip (pyLower q1)) = pyTake 100 (pyStrip (pyLower q2)) →
        fast_cache_key q1 t m = fast_cache_key q2 t m) := by
  refine ⟨?_, ?_, ?_⟩ <;> intros <;>
    simp_all [create_request_key, get_cache_key, fast_cache_key]

/-- Witness for the amended C4 at concrete ticker/question variants. -/
theorem key_normalization_amended_witness :
    pyUpper "aapl" = pyUpper "AAPL" ∧
    pyLower (pyStrip " What is Revenue? ") = pyLower (pyStrip "what is revenue?") ∧
    create_request_key "aapl" " What is Revenue? " [] =
      create_request_key "AAPL" "what is revenue?" [] :=
  ⟨by decide, by decide,
   key_normalization_amended.1 "aapl" "AAPL" " What is Revenue? " "what is revenue?" []
     (by decide) (by decide)⟩

/-- C7: a question classified `simple` short-circuits the whole fast
pipeline: no search-collaborator call, no generation call, the canned answer
with an empty citations list, and the retrieval cache untouched. -/
theorem simple_query_short_circuits (s : Settings) (provider : String)
    (search hybrid : SearchFn) (llm : LlmFn) (now : Int) (cache : FCache)
    (ticker question search_mode sources : String)
    (h : is_simple_query question = true) :
    fastProcessImpl s provider search hybrid llm now cache ticker question
        search_mode sources =
      { result := { answer := simpleCannedAnswer, citations := [],
                    task_type := some "simple", error := none,
                    retrieval_cache_hit := some false, retrieved_chunks := none,
                    retrieval_flags := none },
        cache := cache, calls := [], llmCalls := 0 } := by
  simp [fastProcessImpl, classify, h]

/-- Witness for C7 at the concrete question "hello". -/
theorem simple_query_short_circuits_witness :
    is_simple_query "hello" = true ∧
    fastProcessImpl plainSettings "openai" w8Search w8Search w8Llm 0 []
        "AAPL" "hello" "vector" "both" =
      { result := { answer := simpleCannedAnswer, citations := [],
                    task_type := some "simple", error := none,
                    retrieval_cache_hit := some false, retrieved_chunks := none,
                    retrieval_flags := none },
        cache := [], calls := [], llmCalls := 0 } :=
  ⟨by decide,
   simple_query_short_circuits plainSettings "openai" w8Search w8Search w8Llm 0 []
     "AAPL" "hello" "vector" "both" (by decide)⟩

/-- Reading a key just written into a dict yields the written value. -/
theorem dictGet_dictSet {V : Type} (k : String) (v : V) :
    ∀ c : PyDict V, dictGet k (dictSet k v c) = some v
  | [] => by simp [dictGet, dictSet]
  | e :: rest => by
    by_cases he : e.1 = k
    · simp [dictGet, dictSet, he]
    · simp [dictGet, dictSet, he, dictGet_dictSet k v rest]

/-- C10: `FastRAGAgent._get_cached_chunks` does not consult
`enable_retrieval_cache`, so even with the flag disabled a previously stored
non-expired entry for the derived key is returned as-is and the search
collaborator is never called (the flag guards only the write path). -/
theorem fast_retrieval_cache_read_ignores_flag
    (s sPrev : Settings) (search hybrid : SearchFn) (ts now : Int)
    (c0 : FCache) (q t m srcs : String) (k : Nat) (v : List Chunk)
    (hflag : s.enable_retrieval_cache = false)
    (hPrev : sPrev.enable_retrieval_cache = true)
    (hfresh : now - ts ≤ s.retrieval_cache_ttl_seconds) :
    fastRetrieveImpl s search hybrid now
        (fast_set_cached_chunks sPrev ts (fast_cache_key q t m) v c0) q t m srcs k =
      { chunks := v,
        cache := fast_set_cached_chunks sPrev ts (fast_cache_key q t m) v c0,
        calls := [] } := by
  have hset : fast_set_cached_chunks sPrev ts (fast_cache_key q t m) v c0 =
      dictSet (fast_cache_key q t m) (ts, v) c0 := by
    simp [fast_set_cached_chunks, hPrev]
  have hget : fast_get_cached_chunks s now (fast_cache_key q t m)
      (fast_set_cached_chunks sPrev ts (fast_cache_key q t m) v c0) =
      (some v, fast_set_cached_chunks sPrev ts (fast_cache_key q t m) v c0) := by
    rw [hset]
    simp [fast_get_cached_chunks, dictGet_dictSet, not_lt.mpr hfresh]
  simp [fastRetrieveImpl, hget]

/-- Witness for C10: an entry stored at time 0 with caching enabled is served
at time 10 by a read performed with caching disabled. -/
theorem fast_retrieval_cache_read_ignores_flag_witness :
    plainSettings.enable_retrieval_cache = false ∧
    fastRetrieveImpl plainSettings w8Search w8Search 10
        (fast_set_cached_chunks
          { plainSettings with enable_retrieval_cache := true } 0
          (fast_cache_key "What is revenue?" "AAPL" "vector") [w8Chunk] [])
        "What is revenue?" "AAPL" "vector" "both" 6 =
      { chunks := [w8Chunk],
        cache := fast_set_cached_chunks
          { plainSettings with enable_retrieval_cache := true } 0
          (fast_cache_key "What is revenue?" "AAPL" "vector") [w8Chunk] [],
        calls := [] } :=
  ⟨by decide,
   fast_retrieval_cache_read_ignores_flag plainSettings
     { plainSettings with enable_retrieval_cache := true } w8Search w8Search 0 10
     [] "What is revenue?" "AAPL" "vector" "both" 6 [w8Chunk]
     (by decide) (by decide) (by decide)⟩

/-- Counterexample for C2: the claim says a failing query variant contributes
zero items while items of other variants are still merged and returned.  In
the code the `try/except` wraps the whole fan-out loop, so when the first
variant succeeds (returning `cexChunk`) and the second variant raises, the
whole retrieval returns the empty list — the successfully retrieved item is
discarded. -/
theorem retrieval_partial_failure_counterexample :
    cexSearch "risk outlook" 6 (mkFilter "AAPL" "both") = .ok [cexChunk]
  ∧ rewrite_queries cexSettings "risk outlook" "AAPL" =
      ["risk outlook", "AAPL risk outlook", "risk outlook 10-K filing",
       "risk outlook risk factors"]
  ∧ (retrieveImpl cexSettings cexSearch cexHybrid 0 [] "risk outlook" "AAPL"
        "both" "vector" 6 "general").chunks = []
  ∧ (retrieveImpl cexSettings cexSearch cexHybrid 0 [] "risk outlook" "AAPL"
        "both" "vector" 6 "general").calls =
      [("search", "risk outlook"), ("search", "AAPL risk outlook")] :=
  ⟨by rfl, by rfl, by rfl, by rfl⟩

/-- C2 (amended): an exception raised by the search collaborator for ANY
variant aborts the whole retrieval — all items already returned by earlier
variants are discarded, the retrieval returns an empty list (with no cache
write and `last_cache_hit = False`), and no exception propagates to the
caller; in particular total failure also yields an empty list. -/
theorem retrieval_variant_failure_aborts (s : Settings) (search hybrid : SearchFn)
    (now : Int) (cache cache' : RCache) (q t srcs mode tt : String) (k : Nat)
    (e : String)
    (hmiss : retriever_get_cached s now (retriever_cache_key q t srcs mode) cache =
      (none, cache'))
    (hfail : (runQueries (clientFn search hybrid mode) (clientMethod mode) k
        (mkFilter t srcs) (rewrite_queries s q t)).1 = .error e) :
    (retrieveImpl s search hybrid now cache q t srcs mode k tt).chunks = [] ∧
    (retrieveImpl s search hybrid now cache q t srcs mode k tt).cache = cache' ∧
    (retrieveImpl s search hybrid now cache q t srcs mode k tt).cacheHit = false := by
  rcases hq : runQueries (clientFn search hybrid mode) (clientMethod mode) k
      (mkFilter t srcs) (rewrite_queries s q t) with ⟨r, log⟩
  rw [hq] at hfail
  simp only at hfail
  subst hfail
  refine ⟨?_, ?_, ?_⟩ <;> simp [retrieveImpl, hmiss, hq]

/-- Witness for the amended C2 in the concrete mixed success/failure
scenario. -/
theorem retrieval_variant_failure_aborts_witness :
    retriever_get_cached cexSettings 0
        (retriever_cache_key "risk outlook" "AAPL" "both" "vector") [] = (none, []) ∧
    (runQueries (clientFn cexSearch cexHybrid "vector") (clientMethod "vector") 6
        (mkFilter "AAPL" "both") (rewrite_queries cexSettings "risk outlook" "AAPL")).1 =
      .error "Pinecone connection failed" ∧
    (retrieveImpl cexSettings cexSearch cexHybrid 0 [] "risk outlook" "AAPL"
        "both" "vector" 6 "general").chunks = [] :=
  ⟨by rfl, by rfl,
   (retrieval_variant_failure_aborts cexSettings cexSearch cexHybrid 0 [] []
     "risk outlook" "AAPL" "both" "vector" "general" 6 "Pinecone connection failed"
     (by rfl) (by rfl)).1⟩

/-- Counterexample for C5: the claim says every pipeline run retries once in
hybrid mode when vector retrieval is empty.  The fast pipeline
(`FastRAGAgent.process`, the pipeline used by the chat and compare endpoints)
does not: with vector search returning zero items and hybrid search able to
return an item, it issues a single vector call, never calls the hybrid
collaborator, performs no generation call, and returns its "couldn't find"
answer. -/
theorem fast_pipeline_no_hybrid_fallback :
    (fastProcessImpl plainSettings "openai" c5Search c5Hybrid c5Llm 0 []
        "AAPL" "What are the risk factors?" "vector" "both").result.answer =
      "I couldn't find relevant information about AAPL in the SEC filings. Please try fetching the latest filings first."
  ∧ (fastProcessImpl plainSettings "openai" c5Search c5Hybrid c5Llm 0 []
        "AAPL" "What are the risk factors?" "vector" "both").calls =
      [("search", "What are the risk factors?")]
  ∧ (fastProcessImpl plainSettings "openai" c5Search c5Hybrid c5Llm 0 []
        "AAPL" "What are the risk factors?" "vector" "both").llmCalls = 0
  ∧ c5Hybrid "What are the risk factors?" 6 (mkFilter "AAPL" "both") = .ok [c5Chunk] :=
  ⟨by rfl, by rfl, by rfl, by rfl⟩

/-- C5 (amended): the LangGraph retriever node (`RetrieverAgent.run`) retries
exactly once in hybrid mode when vector retrieval returns no chunks — with
the same question, ticker, sources and top_k, but with `task_type` reset to
"general" — and performs no retry when vector retrieval returned chunks; the
fast pipeline (see the counterexample) performs no such retry at all. -/
theorem graph_pipeline_hybrid_fallback (s : Settings) (search hybrid : SearchFn)
    (now : Int) (cache : RCache) (q t srcs tt : String) :
    (((retrieveImpl s search hybrid now cache q t srcs "vector"
          (if tt = "trend_analysis" then 8 else 6) tt).chunks = []) →
      (runImpl s search hybrid now cache q t srcs "vector" tt).attempts =
        [("vector", q, t, srcs, if tt = "trend_analysis" then 8 else 6, tt),
         ("hybrid", q, t, srcs, if tt = "trend_analysis" then 8 else 6, "general")] ∧
      (runImpl s search hybrid now cache q t srcs "vector" tt).retrieved_chunks =
        (retrieveImpl s search hybrid now
          (retrieveImpl s search hybrid now cache q t srcs "vector"
            (if tt = "trend_analysis" then 8 else 6) tt).cache
          q t srcs "hybrid" (if tt = "trend_analysis" then 8 else 6) "general").chunks)
  ∧ (((retrieveImpl s search hybrid now cache q t srcs "vector"
          (if tt = "trend_analysis" then 8 else 6) tt).chunks ≠ []) →
      (runImpl s search hybrid now cache q t srcs "vector" tt).attempts =
        [("vector", q, t, srcs, if tt = "trend_analysis" then 8 else 6, tt)] ∧
      (runImpl s search hybrid now cache q t srcs "vector" tt).retrieved_chunks =
        (retrieveImpl s search hybrid now cache q t srcs "vector"
          (if tt = "trend_analysis" then 8 else 6) tt).chunks) := by
  constructor
  · intro hempty
    constructor <;> simp [runImpl, hempty]
  · intro hne
    constructor <;> simp [runImpl, hne]

/-- Witness for the amended C5: vector retrieval is empty, and the node
performs exactly the vector attempt followed by one hybrid attempt. -/
theorem graph_pipeline_hybrid_fallback_witness :
    (retrieveImpl plainSettings c5Search c5Hybrid 0 [] "What are the risk factors?"
        "AAPL" "both" "vector" 6 "risk_analysis").chunks = [] ∧
    (runImpl plainSettings c5Search c5Hybrid 0 [] "What are the risk factors?"
        "AAPL" "both" "vector" "risk_analysis").attempts =
      [("vector", "What are the risk factors?", "AAPL", "both", 6, "risk_analysis"),
       ("hybrid", "What are the risk factors?", "AAPL", "both", 6, "general")] :=
  ⟨by rfl,
   ((graph_pipeline_hybrid_fallback plainSettings c5Search c5Hybrid 0 []
       "What are the risk factors?" "AAPL" "both" "risk_analysis").1 (by rfl)).1⟩

/-- Every `process_ticker` result carries its own ticker, whichever branch
ran. -/
theorem process_ticker_ticker (s : Settings) (provider : String)
    (search hybrid : SearchFn) (llm : LlmFn) (now : Int)
    (a : AnswerCache CachedAnswer) (f : FCache) (t q m srcs : String) (fl : Flags) :
    (process_ticker s provider search hybrid llm now a f t q m srcs fl).result.ticker
      = t := by
  unfold process_ticker
  dsimp only
  split <;> rfl

/-- The comparison fan-out returns exactly one result per ticker, in input
order, for every oracle behaviour (including failing ones). -/
theorem compareLoop_map_ticker (s : Settings) (provider : String)
    (search hybrid : SearchFn) (llm : LlmFn) (now : Int) (q m srcs : String)
    (fl : Flags) :
    ∀ (ts : List String) (a : AnswerCache CachedAnswer) (f : FCache),
      ((compareLoop s provider search hybrid llm now q m srcs fl ts a f).results).map
        (fun r => r.ticker) = ts
  | [], _, _ => rfl
  | t :: rest, a, f => by
    simp only [compareLoop, List.map_cons]
    rw [process_ticker_ticker,
      compareLoop_map_ticker s provider search hybrid llm now q m srcs fl rest]

/-- The generic error answer is never the empty string. -/
theorem error_answer_ne_empty (e : String) :
    "Error processing question: " ++ e ≠ "" := by
  intro h
  have hd := congrArg String.data h
  rw [String.data_append] at hd
  simp at hd

/-- A non-credential generation failure is absorbed by `FastRAGAgent.process`
into the generic error dict — it does not propagate. -/
theorem fastProcess_absorbs_llm_failure (s : Settings) (provider : String)
    (search hybrid : SearchFn) (llm : LlmFn) (now : Int) (f : FCache)
    (t q m srcs e : String)
    (hsimple : classify q ≠ "simple")
    (hchunks : (fastRetrieveImpl s search hybrid now f q t m srcs 6).chunks ≠ [])
    (hllm : llm q t
      (format_chunks (fastRetrieveImpl s search hybrid now f q t m srcs 6).chunks 3) =
      .error e)
    (hauth : isAuthError e = false) :
    (fastProcessImpl s provider search hybrid llm now f t q m srcs).result =
      { answer := "Error processing question: " ++ e, citations := [],
        task_type := none, error := some e, retrieval_cache_hit := none,
        retrieved_chunks := none, retrieval_flags := none } := by
  rcases hch : (fastRetrieveImpl s search hybrid now f q t m srcs 6).chunks
    with _ | ⟨c0, cs⟩
  · exact absurd hch hchunks
  · rw [hch] at hllm
    simp only [fastProcessImpl, hsimple, if_false, hch, hllm, hauth,
      List.isEmpty_cons, Bool.false_eq_true, if_false]

/-- C8: one entity's pipeline failure never aborts the others in a comparison
run.  First conjunct: for EVERY oracle behaviour (failures included) the
fan-out yields exactly one result per entity, in order — no slot is lost.
Second conjunct: an entity whose generation call raises a non-credential
error gets an error-flavoured slot (`Error processing question: <msg>`,
override flags, no cache hit), computed without propagating the failure. -/
theorem compare_isolates_entity_failure :
    (∀ (s : Settings) (provider : String) (search hybrid : SearchFn) (llm : LlmFn)
        (now : Int) (q m srcs : String) (fl : Flags) (ts : List String)
        (a : AnswerCache CachedAnswer) (f : FCache),
      ((compareLoop s provider search hybrid llm now q m srcs fl ts a f).results).map
        (fun r => r.ticker) = ts)
  ∧ (∀ (s : Settings) (provider : String) (search hybrid : SearchFn) (llm : LlmFn)
        (now : Int) (a : AnswerCache CachedAnswer) (f : FCache)
        (t q m srcs : String) (fl : Flags) (e : String),
      (get_cached_answer now (get_cache_key t q provider) a).1 = none →
      classify q ≠ "simple" →
      (fastRetrieveImpl s search hybrid now f q t m srcs 6).chunks ≠ [] →
      llm q t
        (format_chunks (fastRetrieveImpl s search hybrid now f q t m srcs 6).chunks 3) =
        .error e →
      isAuthError e = false →
      (process_ticker s provider search hybrid llm now a f t q m srcs fl).result =
        { ticker := t, answer := "Error processing question: " ++ e,
          flags_summary := summarize_flags fl, cache_hit := false }) := by
  constructor
  · intro s provider search hybrid llm now q m srcs fl ts a f
    exact compareLoop_map_ticker s provider search hybrid llm now q m srcs fl ts a f
  · intro s provider search hybrid llm now a f t q m srcs fl e hmiss hsimple hchunks
      hllm hauth
    rcases hm : get_cached_answer now (get_cache_key t q provider) a with ⟨o, a'⟩
    rw [hm] at hmiss
    simp only at hmiss
    subst hmiss
    have hp := fastProcess_absorbs_llm_failure s provider search hybrid llm now f
      t q m srcs e hsimple hchunks hllm hauth
    unfold process_ticker
    dsimp only
    rw [hm]
    dsimp only
    rw [hp]
    simp [error_answer_ne_empty e]

/-- Witness for C8: ticker "BAD" whose generation call fails still fills its
slot with the error-flavoured result, and the two-entity fan-out keeps both
slots in order. -/
theorem compare_isolates_entity_failure_witness :
    ((compareLoop plainSettings "openai" w8Search w8Search w8Llm 0
        "What is revenue?" "vector" "both" w8Flags ["AAPL", "BAD"] [] []).results).map
      (fun r => r.ticker) = ["AAPL", "BAD"] ∧
    (process_ticker plainSettings "openai" w8Search w8Search w8Llm 0 [] []
        "BAD" "What is revenue?" "vector" "both" w8Flags).result =
      { ticker := "BAD",
        answer := "Error processing question: upstream model exploded",
        flags_summary := summarize_flags w8Flags, cache_hit := false } :=
  ⟨compare_isolates_entity_failure.1 plainSettings "openai" w8Search w8Search w8Llm 0
      "What is revenue?" "vector" "both" w8Flags ["AAPL", "BAD"] [] [],
   compare_isolates_entity_failure.2 plainSettings "openai" w8Search w8Search w8Llm 0
      [] [] "BAD" "What is revenue?" "vector" "both" w8Flags "upstream model exploded"
      (by rfl) (by decide) (by decide) (by rfl) (by decide)⟩

/-- C9: compare normalizes its ticker list (trim, uppercase, discard blanks,
first-seen dedup) — the example list `["aapl","AAPL"," aapl ","MSFT"]`
normalizes to `["AAPL","MSFT"]` — rejects fewer than two raw or two distinct
tickers with a 400 before touching any cache or collaborator, and otherwise
returns exactly one result per normalized ticker in normalized order. -/
theorem compare_normalizes_validates_orders :
    normalize_tickers ["aapl", "AAPL", " aapl ", "MSFT"] = ["AAPL", "MSFT"]
  ∧ (∀ (s : Settings) (provider : String) (search hybrid : SearchFn) (llm : LlmFn)
        (now : Int) (a : AnswerCache CachedAnswer) (f : FCache) (ts : List String)
        (q m srcs : String) (fl : Flags),
      ts.length < 2 ∨ (normalize_tickers ts).length < 2 →
      compareImpl s provider search hybrid llm now a f ts q m srcs fl =
        { response := .error 400, acache := a, fcache := f, calls := [], llmCalls := 0 })
  ∧ (∀ (s : Settings) (provider : String) (search hybrid : SearchFn) (llm : LlmFn)
        (now : Int) (a : AnswerCache CachedAnswer) (f : FCache) (ts : List String)
        (q m srcs : String) (fl : Flags),
      2 ≤ ts.length → 2 ≤ (normalize_tickers ts).length →
      ∃ rs, (compareImpl s provider search hybrid llm now a f ts q m srcs fl).response =
          .ok rs ∧
        rs.map (fun r => r.ticker) = normalize_tickers ts) := by
  refine ⟨by decide, ?_, ?_⟩
  · intro s provider search hybrid llm now a f ts q m srcs fl h
    by_cases h1 : ts.length < 2
    · simp [compareImpl, h1]
    · rcases h with h | h2
      · exact absurd h h1
      · simp [compareImpl, h1, h2]
  · intro s provider search hybrid llm now a f ts q m srcs fl h1 h2
    refine ⟨(compareLoop s provider search hybrid llm now q m srcs fl
      (normalize_tickers ts) a f).results, ?_, ?_⟩
    · simp [compareImpl, Nat.not_lt.mpr h1, Nat.not_lt.mpr h2]
    · exact compareLoop_map_ticker s provider search hybrid llm now q m srcs fl
        (normalize_tickers ts) a f

/-- Witness for C9: a one-ticker request is rejected with caches untouched,
and the example list from the claim yields results ordered AAPL then MSFT. -/
theorem compare_normalizes_validates_orders_witness :
    compareImpl plainSettings "openai" w8Search w8Search w8Llm 0 [] []
        ["aapl"] "What is revenue?" "vector" "both" w8Flags =
      { response := .error 400, acache := [], fcache := [], calls := [], llmCalls := 0 } ∧
    (∃ rs, (compareImpl plainSettings "openai" w8Search w8Search w8Llm 0 [] []
        ["aapl", "AAPL", " aapl ", "MSFT"] "What is revenue?" "vector" "both"
        w8Flags).response = .ok rs ∧
      rs.map (fun r => r.ticker) = normalize_tickers ["aapl", "AAPL", " aapl ", "MSFT"]) :=
  ⟨compare_normalizes_validates_orders.2.1 plainSettings "openai" w8Search w8Search
      w8Llm 0 [] [] ["aapl"] "What is revenue?" "vector" "both" w8Flags
      (Or.inl (by decide)),
   compare_normalizes_validates_orders.2.2 plainSettings "openai" w8Search w8Search
      w8Llm 0 [] [] ["aapl", "AAPL", " aapl ", "MSFT"] "What is revenue?" "vector"
      "both" w8Flags (by decide) (by decide)⟩

end SecRag
